import Mathlib

/-!
# Verification of the CAD text-translator core pipeline

A shallow embedding, in Lean 4, of the text-matching, translation-table,
substitution and noise-filtering code of the `cad-text-translator`
repository, together with theorems settling the frozen specification
claims.  Each definition is translated from a specific Python function of
the repository (named in its doc comment); strings are modelled as Lean
`String` (logically a list of characters), Python `dict`s keyed by strings
as insertion-ordered association lists, floating point sizes as rationals,
and Python attribute-presence probing (`hasattr`) as `Option` fields.
-/

namespace CadTrans

/-! ## Python string primitives

Embeddings of the Python string operations used by the repository:
`str.strip`, `re.sub(r'\s+', '', x)`, `re.sub(r'\s+', ' ', x)`,
`str.lower`/`str.upper` (the data handled by the code is ASCII or CJK;
CJK characters are case-invariant in both Python and this model),
and `str.replace`. -/

/-- The whitespace class used by Python's `str.strip` and `re`'s `\\s`
(given by code point: space, TAB..CR, FS..US, NEL, NBSP, and the Unicode
space characters U+1680, U+2000..U+200A, U+2028, U+2029, U+202F, U+205F,
U+3000). -/
def isPyWs (c : Char) : Bool :=
  let n := c.toNat
  n = 32 || (9 <= n && n <= 13) || (28 <= n && n <= 31) || n = 0x85 || n = 0xa0 ||
  n = 0x1680 || (0x2000 <= n && n <= 0x200a) || n = 0x2028 || n = 0x2029 ||
  n = 0x202f || n = 0x205f || n = 0x3000

/-- `str.strip()` on the character list: drop whitespace at both ends. -/
def pyStripList (l : List Char) : List Char :=
  ((l.dropWhile isPyWs).reverse.dropWhile isPyWs).reverse

/-- Python `value.strip()`. -/
def pyStrip (s : String) : String := String.mk (pyStripList s.data)

/-- Python `re.sub(r'\s+', '', x)`: delete every whitespace character. -/
def stripAllWs (s : String) : String :=
  String.mk (s.data.filter (fun c => !isPyWs c))

/-- `re.sub(r'\s+', ' ', ·)` on a character list: replace each maximal run
of whitespace by a single space. -/
def collapseWsList : List Char → List Char
  | [] => []
  | [c] => if isPyWs c then [' '] else [c]
  | c1 :: c2 :: rest =>
    if isPyWs c1 && isPyWs c2 then collapseWsList (c2 :: rest)
    else (if isPyWs c1 then ' ' else c1) :: collapseWsList (c2 :: rest)

/-- Python `re.sub(r'\s+', ' ', x.strip())` (the `单空格` normalization of
`smart_translate` in `回填.py`). -/
def singleSpaceNorm (s : String) : String :=
  String.mk (collapseWsList (pyStripList s.data))

/-- Python `str.lower` (ASCII; the tokens compared by the code are ASCII). -/
def pyLower (s : String) : String := String.mk (s.data.map Char.toLower)

/-- Python `str.upper` (ASCII; the keywords compared by the code are ASCII). -/
def pyUpper (s : String) : String := String.mk (s.data.map Char.toUpper)

/-! ## `回填.py` — the smart matcher `smart_translate` -/

/-- Python `translation_map[text]` / `text in translation_map`, with the
mapping embedded as an insertion-ordered association list (as built by
`load_translation_map`, whose keys are unique). -/
def dict_get (m : List (String × String)) (k : String) : Option String :=
  match m.find? (fun kv => kv.fst == k) with
  | some kv => some kv.snd
  | none => none

/-- The `normalization_methods` list of `smart_translate` (`回填.py`
lines 34-39), in the source's fixed order: strip-all-whitespace,
single-space, trim-only. -/
def norm_methods : List (String × (String → String)) :=
  [("移除空格", stripAllWs), ("单空格", singleSpaceNorm), ("去首尾空格", pyStrip)]

/-- The method cascade of `smart_translate` (`回填.py` lines 41-54):
each normalization method is tried against the entire mapping (in
insertion order) before the next method is tried; an empty stored
translation at the first matching key aborts with `翻译为空`. -/
def try_norm_methods :
    List (String × (String → String)) → String → List (String × String) →
    Option String × String
  | [], _, _ => (none, "未找到匹配")
  | (mname, f) :: rest, text, m =>
    match m.find? (fun kv => f kv.fst == f text) with
    | some kv =>
      if kv.snd == "" || pyStrip kv.snd == "" then (none, "翻译为空")
      else (some kv.snd, mname ++ "匹配(" ++ kv.fst ++ ")")
    | none => try_norm_methods rest text m

/-- `smart_translate(text, translation_map)` of `回填.py` (lines 12-54):
exact dictionary hit first (tag `直接匹配`, or `翻译为空` when the stored
target is blank), then the normalization cascade, else `未找到匹配`.
The Python guard `if not text or not isinstance(text, str)` becomes the
empty-string test (every Lean `String` is a string). -/
def smart_translate (text : String) (m : List (String × String)) :
    Option String × String :=
  if text == "" then (none, "无效文本")
  else
    match dict_get m text with
    | some translated =>
      if translated == "" || pyStrip translated == "" then (none, "翻译为空")
      else (some translated, "直接匹配")
    | none => try_norm_methods norm_methods text m

/-! ## `回填.py` — the translation table loader `load_translation_map`

A spreadsheet cell is `Option String`: `none` models a missing value
(pandas `NaN`, for which `pd.notna` is false and `str(...)` is `"nan"`);
a row is the list of its cells. -/

/-- Python `str(cell)` for a cell of the table (`str` of pandas `NaN` is
the string `"nan"`). -/
def cellStr : Option String → String
  | none => "nan"
  | some s => s

/-- `pd.notna(cell)`. -/
def pd_notna : Option String → Bool
  | none => false
  | some _ => true

/-- The placeholder tokens rejected by `load_translation_map`
(`invalid_values`, `回填.py` line 83). -/
def invalid_values : List String := ["", "nan", "none", "null", "n/a", "na"]

/-- Column-layout inference of `load_translation_map` (`回填.py` lines
66-77): 3+ columns → (source = column 1, target = column 2); exactly 2
columns → (source = column 0, target = column 1); fewer → row skipped.
Returns the trimmed stringified source together with the raw target cell. -/
def row_entry (row : List (Option String)) : Option (String × Option String) :=
  if row.length ≥ 3 then some (pyStrip (cellStr (row.getD 1 none)), row.getD 2 none)
  else if row.length ≥ 2 then some (pyStrip (cellStr (row.getD 0 none)), row.getD 1 none)
  else none

/-- Target validation of `load_translation_map` (`回填.py` lines 79-89):
the target cell is admitted only if `pd.notna` holds and its stringified,
trimmed form is non-empty and not (case-insensitively) a placeholder
token; returns the stored target string when admitted. -/
def accept_target (t : Option String) : Option String :=
  if pd_notna t then
    let ts := pyStrip (cellStr t)
    if ts ≠ "" ∧ invalid_values.contains (pyLower ts) = false then some ts
    else none
  else none

/-- Python dict assignment `translation_map[original] = translated_str`:
overwrite in place if the key exists (keeping its position), else append. -/
def dict_set (m : List (String × String)) (k v : String) :
    List (String × String) :=
  if m.any (fun kv => kv.fst == k) then
    m.map (fun kv => if kv.fst == k then (k, v) else kv)
  else m ++ [(k, v)]

/-- `load_translation_map` of `回填.py` (lines 56-100) on the in-memory
rows of the table: fold the per-row column inference and target
validation into an insertion-ordered mapping, later rows overwriting
earlier ones for the same source. -/
def load_translation_map (rows : List (List (Option String))) :
    List (String × String) :=
  rows.foldl
    (fun m row =>
      match row_entry row with
      | none => m
      | some (orig, tcell) =>
        match accept_target tcell with
        | some ts => dict_set m orig ts
        | none => m)
    []

/-! ## `回填.py` — the substitution engine `translate_text_entity`

A DXF attribute that the Python code probes with `hasattr(entity.dxf, …)`
is an `Option` field; numeric sizes are rationals. -/

/-- A text-style record of the document's style table (`doc.styles`):
name, font, and the width factor set at creation. -/
structure StyleRec where
  name : String
  font : String
  width : ℚ
deriving DecidableEq

/-- A text-bearing entity, with one `Option` field per DXF attribute the
code probes (`text`, `height`, `rotation`, `insert`, `layer`, `style`). -/
structure TextEnt where
  text : Option String
  height : Option ℚ
  rotation : Option ℚ
  insert : Option (ℚ × ℚ × ℚ)
  layer : Option String
  style : Option String
deriving DecidableEq

/-- What became of the processed entity: kept in place (possibly mutated,
replace mode or skip), or deleted and recreated as a fresh TEXT entity
(new-entity mode). -/
inductive Fate where
  | kept (e : TextEnt)
  | recreated (e : TextEnt)
deriving DecidableEq

/-- The entity present in the document after processing. -/
def Fate.entity : Fate → TextEnt
  | kept e => e
  | recreated e => e

/-- The per-entity result dictionary of `translate_text_entity`. -/
structure Counters where
  processed : Nat
  translated : Nat
  skipped : Nat
  errors : Nat
deriving DecidableEq

/-- `style_name = f"TranslatedStyle_{font_name.replace(' ', '_')}"`
(`回填.py` lines 151 and 191): the style-table entry name derived
deterministically from the requested font. -/
def style_name (font : String) : String :=
  "TranslatedStyle_" ++ String.mk (font.data.map (fun c => if c = ' ' then '_' else c))

/-- The check-then-create style handling repeated at `回填.py` lines
153-158 and 192-195: create the style (with the requested font and width
factor 0.8) only when no entry of that name exists. -/
def ensure_style (styles : List StyleRec) (font : String) : List StyleRec :=
  if styles.any (fun s => s.name == style_name font) then styles
  else styles ++ [⟨style_name font, font, (4 : ℚ) / 5⟩]

/-- `translate_text_entity(owner, entity, translation_map, font_name,
replace_mode, font_size_reduction)` of `回填.py` (lines 102-210), acting
on the document's style table and the entity; returns the updated style
table, the entity's fate, and the per-entity counters.  The modelled
operations are total, so the `except` path (counted in `errors`) is
unreachable here. -/
def translate_text_entity (styles : List StyleRec) (e : TextEnt)
    (m : List (String × String)) (font : String) (replace_mode : Bool)
    (font_size_reduction : ℚ) : List StyleRec × Fate × Counters :=
  let otext := e.text.getD ""
  if otext == "" || pyStrip otext == "" then (styles, .kept e, ⟨1, 0, 1, 0⟩)
  else
    match smart_translate otext m with
    | (none, _) => (styles, .kept e, ⟨1, 0, 1, 0⟩)
    | (some tr, _) =>
      if replace_mode then
        let e1 := { e with text := some tr }
        let se :=
          match e.style with
          | none => (styles, e1)
          | some _ =>
            (ensure_style styles font, { e1 with style := some (style_name font) })
        let e3 :=
          match e.height with
          | none => se.2
          | some h => { se.2 with height := some (max (h - font_size_reduction) 1) }
        (se.1, .kept e3, ⟨1, 1, 0, 0⟩)
      else
        let insert_point := e.insert.getD (0, 0, 0)
        let height := e.height.getD (5 / 2)
        let rot := e.rotation.getD 0
        let new_height := max (height - font_size_reduction) 1
        let styles1 := ensure_style styles font
        let new_ent : TextEnt :=
          { text := some tr, height := some new_height, rotation := some rot,
            insert := some insert_point, layer := some (e.layer.getD "0"),
            style := some (style_name font) }
        (styles1, .recreated new_ent, ⟨1, 1, 0, 0⟩)

/-- The style table after a sequence of per-entity substitutions (each
job is an entity together with its `replace_mode` flag), sharing one
document's style table, as in `translate_dwg`'s walks over model space,
layouts and blocks (`回填.py` lines 237-291). -/
def run_translate_jobs (styles : List StyleRec) (jobs : List (TextEnt × Bool))
    (m : List (String × String)) (font : String) (red : ℚ) : List StyleRec :=
  jobs.foldl (fun st job => (translate_text_entity st job.1 m font job.2 red).1) styles

/-- A job reaches the style handling of `translate_text_entity`: its text
is non-blank and matched, and either it runs in new-entity mode or the
entity has a `style` attribute (replace mode's `hasattr` guard). -/
def triggers_style_creation (m : List (String × String))
    (job : TextEnt × Bool) : Prop :=
  pyStrip (job.1.text.getD "") ≠ "" ∧
  ((smart_translate (job.1.text.getD "") m).1.isSome = true) ∧
  (job.2 = false ∨ job.1.style.isSome = true)

/-! ## `回填.py` — the `main` workflow around the loader -/

/-- `load_translation_map` as seen by the caller: any failure to locate
or read the table file (the `except` branches, `回填.py` lines 93-100)
yields the empty mapping; `none` models such a failure. -/
def load_translation_map_or_empty
    (excel : Option (List (List (Option String)))) : List (String × String) :=
  match excel with
  | none => []
  | some rows => load_translation_map rows

/-- The `main()` workflow of `回填.py` (lines 352-432) around the loaded
mapping: on an empty mapping it prints an error and returns 1 without
running `process_directory`; otherwise it processes the directory
(abstracted here by its total error count) and returns 0 or 1.  The
result is `(return value of main, whether the substitution phase ran)`. -/
def main_backfill (excel : Option (List (List (Option String))))
    (process_errors : Nat) : Nat × Bool :=
  let translation_map := load_translation_map_or_empty excel
  if translation_map.isEmpty then (1, false)
  else ((if process_errors = 0 then 0 else 1), true)

/-- The process exit status of running `回填.py` as a script: the
`if __name__ == "__main__":` block (lines 434-435) calls `main()` and
discards its return value, so the interpreter always terminates with
exit status 0. -/
def script_exit_status (excel : Option (List (List (Option String))))
    (process_errors : Nat) : Nat :=
  let _ := main_backfill excel process_errors
  0

/-! ## `dxf_text_extractor.py` — the noise filter of `DXFTagExtractor` -/

/-- Transition function of a DFA for the body (after an optional sign) of
a Python `float()` numeric literal: integer digits, optional fraction,
optional exponent, with single underscores allowed between digits.
States: 0 start; 1 integer digits; 2 dot with no integer part; 3 dot
after integer digits; 4 fraction digits; 5 after `e`/`E`; 6 after the
exponent's sign; 7 exponent digits; 8/9/10 after an underscore in the
integer/fraction/exponent digits; 99 reject. -/
def floatStep (st : Nat) (c : Char) : Nat :=
  if st = 0 then (if c.isDigit then 1 else if c = '.' then 2 else 99)
  else if st = 1 then
    (if c.isDigit then 1 else if c = '_' then 8 else if c = '.' then 3
     else if c = 'e' ∨ c = 'E' then 5 else 99)
  else if st = 8 then (if c.isDigit then 1 else 99)
  else if st = 2 then (if c.isDigit then 4 else 99)
  else if st = 3 then (if c.isDigit then 4 else if c = 'e' ∨ c = 'E' then 5 else 99)
  else if st = 4 then
    (if c.isDigit then 4 else if c = '_' then 9
     else if c = 'e' ∨ c = 'E' then 5 else 99)
  else if st = 9 then (if c.isDigit then 4 else 99)
  else if st = 5 then (if c = '+' ∨ c = '-' then 6 else if c.isDigit then 7 else 99)
  else if st = 6 then (if c.isDigit then 7 else 99)
  else if st = 7 then (if c.isDigit then 7 else if c = '_' then 10 else 99)
  else if st = 10 then (if c.isDigit then 7 else 99)
  else 99

/-- Whether Python `float(value)` succeeds (`try: float(value)` in
`_is_technical_value`): surrounding whitespace ignored, one optional
sign, then `inf`/`infinity`/`nan` (case-insensitive) or a numeric
literal recognized by `floatStep`. -/
def isPyFloat (s : String) : Bool :=
  let l := pyStripList s.data
  let l := match l with
    | '+' :: r => r
    | '-' :: r => r
    | r => r
  let low := l.map Char.toLower
  if low = "inf".data ∨ low = "infinity".data ∨ low = "nan".data then true
  else
    let fin := l.foldl floatStep 0
    fin = 1 || fin = 3 || fin = 4 || fin = 7

/-- Python `value.split(',')` (keeps empty parts). -/
def splitCommaList (l : List Char) : List (List Char) :=
  l.foldr
    (fun c acc =>
      match acc with
      | [] => [[c]]
      | g :: gs => if c = ',' then [] :: g :: gs else (c :: g) :: gs)
    [[]]

/-- The coordinate test of `_is_technical_value` (`dxf_text_extractor.py`
line 284): the value contains a comma and every comma-separated part,
with every `.` and `-` removed, satisfies `str.isdigit` (non-empty, all
digits). -/
def is_coordinate_like (v : String) : Bool :=
  v.data.contains ',' &&
    (splitCommaList v.data).all (fun part =>
      let digitsOnly := part.filter (fun c => c != '.' && c != '-')
      !digitsOnly.isEmpty && digitsOnly.all Char.isDigit)

/-- `DXFTagExtractor._is_technical_value` (lines 274-287): numeric
literal or coordinate-like. -/
def is_technical_value (v : String) : Bool :=
  isPyFloat v || is_coordinate_like v

/-- The character set `'0123456789ABCDEFabcdef'` of `_is_handle_value`. -/
def hex_chars : List Char :=
  ['0', '1', '2', '3', '4', '5', '6', '7', '8', '9',
   'A', 'B', 'C', 'D', 'E', 'F', 'a', 'b', 'c', 'd', 'e', 'f']

/-- `DXFTagExtractor._is_handle_value` (lines 289-294): hexadecimal
string of length at most 8 (an empty string qualifies, as in Python's
`all` over an empty iterable). -/
def is_handle_value (v : String) : Bool :=
  v.length ≤ 8 && v.data.all (fun c => hex_chars.contains c)

/-- The `layer_patterns` allow-list of `_is_layer_name` (lines 298-305). -/
def layer_patterns : List String := ["0", "DEFPOINTS", "TEXT", "DIM", "HATCH"]

/-- `DXFTagExtractor._is_layer_name` (lines 296-314): a reserved layer
token or a recognized layer-name prefix. -/
def is_layer_name (v : String) : Bool :=
  layer_patterns.contains v ||
  "LAYER_".data.isPrefixOf v.data || "L_".data.isPrefixOf v.data ||
  "LAY_".data.isPrefixOf v.data

/-- `DXFTagExtractor._is_short_hex` (lines 316-320): hexadecimal string
of length at most 4. -/
def is_short_hex (v : String) : Bool :=
  v.length ≤ 4 && v.data.all (fun c => hex_chars.contains c)

/-- The `entity_types` keyword set of `_is_cad_entity_type`
(lines 355-363). -/
def entity_types : List String :=
  ["SECTION", "ENDSEC", "HEADER", "CLASSES", "TABLES", "BLOCKS", "ENTITIES",
   "OBJECTS", "EOF", "LINE", "CIRCLE", "ARC", "TEXT", "MTEXT", "INSERT",
   "POLYLINE", "LWPOLYLINE", "POINT", "ELLIPSE", "SPLINE", "HATCH",
   "DIMENSION", "LEADER", "VIEWPORT", "ACDBTEXT", "ACDBMTEXT"]

/-- `DXFTagExtractor._is_cad_entity_type` (lines 355-363):
case-insensitive membership in the keyword set. -/
def is_cad_entity_type (v : String) : Bool :=
  entity_types.contains (pyUpper v)

/-- `DXFTagExtractor._is_meaningful_text` (lines 322-353): the eight
short-circuiting exclusion checks, in source order.  Note that the final
length check is on the raw value (`len(value) < 2`), not the trimmed
one. -/
def is_meaningful_text (v : String) : Bool :=
  if v == "" || pyStrip v == "" then false
  else if is_technical_value v then false
  else if is_handle_value v then false
  else if is_layer_name v then false
  else if is_short_hex v then false
  else if is_cad_entity_type v then false
  else if v.length < 2 then false
  else true

/-! ## MTEXT formatting-markup deletion (`cli/extract_texts.py`)

`extract_mtext_entities` cleans each MTEXT's raw text with
`re.sub(r'\\[A-Za-z][^;]*;', '', …)` then `re.sub(r'\{[^}]*\}', '', …)`
then `strip()`.  Both patterns match from their opening character to the
first closing `;` / `}` after it, scanning left to right over the
original string, matches non-overlapping; the embeddings below follow
that scan, using an explicit fuel argument (the list length, which
strictly bounds the number of scanning steps) so that the recursion is
structural. -/

/-- Split a character list at the first occurrence of `target`:
`some (before, after)`, or `none` when absent. -/
def splitAtFirst (target : Char) : List Char → Option (List Char × List Char)
  | [] => none
  | c :: rest =>
    if c = target then some ([], rest)
    else
      match splitAtFirst target rest with
      | some pp => some (c :: pp.1, pp.2)
      | none => none

/-- `[A-Za-z]`. -/
def isAsciiLetter (c : Char) : Bool :=
  ('A' ≤ c && c ≤ 'Z') || ('a' ≤ c && c ≤ 'z')

/-- One fuel-indexed pass of `re.sub(r'\\[A-Za-z][^;]*;', '', …)`: at a
backslash followed by an ASCII letter with a `;` somewhere after, delete
through that first `;` and continue after it; otherwise emit the current
character and move one position right. -/
def subCtrlFuel : Nat → List Char → List Char
  | 0, l => l
  | _ + 1, [] => []
  | _ + 1, [c] => [c]
  | fuel + 1, a :: b :: rest =>
    if a = '\\' && isAsciiLetter b then
      match splitAtFirst ';' rest with
      | some pp => subCtrlFuel fuel pp.2
      | none => a :: subCtrlFuel fuel (b :: rest)
    else a :: subCtrlFuel fuel (b :: rest)

/-- `re.sub(r'\\[A-Za-z][^;]*;', '', s)`. -/
def reSubCtrl (s : String) : String :=
  String.mk (subCtrlFuel s.data.length s.data)

/-- One fuel-indexed pass of the brace-group deletion: at an opening
brace with a closing brace somewhere after, delete through that first
closing brace and continue after it. -/
def subBraceFuel : Nat → List Char → List Char
  | 0, l => l
  | _ + 1, [] => []
  | fuel + 1, a :: rest =>
    if a = Char.ofNat 123 then
      match splitAtFirst (Char.ofNat 125) rest with
      | some pp => subBraceFuel fuel pp.2
      | none => a :: subBraceFuel fuel rest
    else a :: subBraceFuel fuel rest

/-- `re.sub` of the brace-group pattern deleting `"{...}"` groups. -/
def reSubBrace (s : String) : String :=
  String.mk (subBraceFuel s.data.length s.data)

/-- The MTEXT cleaning of `DXFTextExtractor.extract_mtext_entities`
(`cli/extract_texts.py` lines 149-154): delete inline control sequences,
delete brace groups, then trim. -/
def clean_mtext (raw : String) : String :=
  pyStrip (reSubBrace (reSubCtrl raw))

/-! ## `cli/extract_texts.py` — `DXFTextExtractor`'s MTEXT scan -/

/-- An MTEXT entity as read by the CLI extractor: raw `entity.text`,
layer, handle. -/
structure MtextRaw where
  raw_text : String
  layer : String
  handle : String
deriving DecidableEq

/-- The fields of the per-entity `text_info` dictionary used here. -/
structure TextInfo where
  typ : String
  handle : String
  text : String
  layer : String
deriving DecidableEq

/-- `r'^\s*$'`: only whitespace (or empty). -/
def cli_pat_blank (t : String) : Bool := t.data.all isPyWs

/-- `r'^[\d\.\-\+\s]*$'`: only digits, dots, signs and whitespace. -/
def cli_pat_numeric (t : String) : Bool :=
  t.data.all (fun c => c.isDigit || c = '.' || c = '-' || c = '+' || isPyWs c)

/-- `r'^[A-Za-z]$'`: a single ASCII letter. -/
def cli_pat_single_letter (t : String) : Bool :=
  match t.data with
  | [c] => isAsciiLetter c
  | _ => false

/-- `DXFTextExtractor.should_exclude_text` (`cli/extract_texts.py`
lines 80-103): length window, excluded layers, then the three exclusion
patterns. -/
def should_exclude_text (min_length max_length : Nat)
    (exclude_layers : List String) (text layer : String) : Bool :=
  if text.length < min_length ∨ text.length > max_length then true
  else if exclude_layers.contains layer then true
  else cli_pat_blank text || cli_pat_numeric text || cli_pat_single_letter text

/-- `DXFTextExtractor.extract_mtext_entities` (lines 139-177): for every
MTEXT entity of the model space, clean the raw text (control sequences
and brace groups deleted, then trimmed), drop it if excluded, else
record it. -/
def extract_mtext_entities (min_length max_length : Nat)
    (exclude_layers : List String) (ents : List MtextRaw) : List TextInfo :=
  ents.filterMap (fun e =>
    let clean := clean_mtext e.raw_text
    if should_exclude_text min_length max_length exclude_layers clean e.layer
    then none
    else some ⟨"MTEXT", e.handle, clean, e.layer⟩)

/-! ## `dxf_text_extractor.py` — `ModelSpaceExtractor`'s scan -/

/-- A model-space entity as probed by `ModelSpaceExtractor.extract`:
a TEXT entity (whose `dxf.text` may be absent), an MTEXT entity (whose
`.text` is always present), or an INSERT with its attribute texts. -/
inductive MsEntity where
  | textEnt (text : Option String)
  | mtextEnt (text : String)
  | insertEnt (attribs : List (Option String))
deriving DecidableEq

/-- `ModelSpaceExtractor.extract` (`dxf_text_extractor.py` lines 79-112):
three passes over the model space — TEXT entities (`dxf.text.strip()`
kept when non-empty), MTEXT entities (`.text.strip()` kept when
non-empty, with no markup removal), INSERT attributes — concatenated in
that order. -/
def model_space_texts (ents : List MsEntity) : List String :=
  (ents.filterMap (fun e =>
    match e with
    | .textEnt (some t) => if pyStrip t == "" then none else some (pyStrip t)
    | _ => none)) ++
  (ents.filterMap (fun e =>
    match e with
    | .mtextEnt t => if pyStrip t == "" then none else some (pyStrip t)
    | _ => none)) ++
  (ents.map (fun e =>
    match e with
    | .insertEnt ats =>
      ats.filterMap (fun a =>
        match a with
        | some t => if pyStrip t == "" then none else some (pyStrip t)
        | none => none)
    | _ => [])).flatten

/-! ## `dxf_text_extractor.py` — the aggregation-level `TextFilter` -/

/-- `r'^\d+$'`: non-empty, digits only. -/
def tf_pat_digits (t : String) : Bool :=
  !t.data.isEmpty && t.data.all Char.isDigit

/-- `r'^[A-Fa-f0-9]+$'`: non-empty, hexadecimal digit characters only. -/
def tf_pat_hex (t : String) : Bool :=
  !t.data.isEmpty && t.data.all (fun c => hex_chars.contains c)

/-- `r'^[\s\-_\.]+$'`: non-empty, only whitespace, dashes, underscores
and dots. -/
def tf_pat_symbols (t : String) : Bool :=
  !t.data.isEmpty && t.data.all (fun c => isPyWs c || c = '-' || c = '_' || c = '.')

/-- `TextFilter._is_valid_text` (`dxf_text_extractor.py` lines 388-403):
reject a falsy value, trim, enforce the `[min_length, max_length]`
window, then reject any value fully matching one of the three exclusion
patterns. -/
def tf_is_valid_text (min_length max_length : Nat) (text : String) : Bool :=
  if text == "" then false
  else
    let t := pyStrip text
    if t.length < min_length ∨ t.length > max_length then false
    else if tf_pat_digits t || tf_pat_hex t || tf_pat_symbols t then false
    else true

/-- `TextFilter._clean_text` (lines 405-414): trim, then collapse
whitespace runs to single spaces. -/
def tf_clean_text (text : String) : String :=
  String.mk (collapseWsList (pyStripList text.data))

/-- The loop body of `TextFilter.filter_texts` (lines 378-386): a valid
text is cleaned and appended unless already present or empty. -/
def tf_step (min_length max_length : Nat) (filtered : List String)
    (text : String) : List String :=
  if tf_is_valid_text min_length max_length text then
    if tf_clean_text text ≠ "" ∧ filtered.contains (tf_clean_text text) = false
    then filtered ++ [tf_clean_text text]
    else filtered
  else filtered

/-- `TextFilter.filter_texts` (lines 378-386): fold of `tf_step` over the
input texts (the engine instantiates the filter with the default window
`min_length = 1`, `max_length = 1000`). -/
def filter_texts (min_length max_length : Nat) (texts : List String) :
    List String :=
  texts.foldl (tf_step min_length max_length) []

end CadTrans

/-! ## Theorems -/

namespace CadTrans

theorem pyStrip_empty : pyStrip "" = "" := rfl

/-- C1 (amended: the input key must be non-empty, since `smart_translate`
rejects a falsy `text` before the dictionary lookup): for every mapping
`m` and every non-empty string `t` that is a key of `m`, if the stored
target is non-empty after trimming the matcher returns it tagged
`直接匹配` ("direct"), regardless of any other key of `m`; if the stored
target is empty or whitespace-only the matcher returns no-match tagged
`翻译为空` ("empty translation") and does not fall through to the
normalization cascade. -/
theorem smart_translate_exact_key (m : List (String × String)) (t v : String)
    (ht : t ≠ "") (hv : dict_get m t = some v) :
    (pyStrip v ≠ "" → smart_translate t m = (some v, "直接匹配")) ∧
    (pyStrip v = "" → smart_translate t m = (none, "翻译为空")) := by
  have ht' : (t == "") = false := by simp [ht]
  constructor
  · intro hne
    have h1 : (v == "") = false := by
      simp only [beq_eq_false_iff_ne, ne_eq]
      intro h
      exact hne (h ▸ pyStrip_empty)
    have h2 : (pyStrip v == "") = false := by simp [hne]
    simp [smart_translate, ht', hv, h1, h2]
  · intro heq
    simp [smart_translate, ht', hv, heq]

/-- Witness for `smart_translate_exact_key` at a concrete input. -/
theorem smart_translate_exact_key_witness :
    smart_translate "测试" [("测试", "Test")] = (some "Test", "直接匹配") :=
  (smart_translate_exact_key [("测试", "Test")] "测试" "Test"
    (by decide) (by decide)).1 (by decide)

/-- C1, counterexample to the claim as stated: the empty string is a key
of the mapping `[("", "X")]` with non-empty stored target `"X"`, yet
`smart_translate` returns `(none, 无效文本)` instead of the direct hit,
because the Python guard `if not text` fires before the lookup. -/
theorem smart_translate_empty_key_counterexample :
    dict_get [("", "X")] "" = some "X" ∧ pyStrip "X" ≠ "" ∧
    smart_translate "" [("", "X")] = (none, "无效文本") := by decide

end CadTrans

namespace CadTrans

/-- C2: when no exact key matches the (non-empty) input, the three
normalization methods are applied in the fixed order strip-all-whitespace
(`移除空格`), single-space (`单空格`), trim-only (`去首尾空格`), each
scanning the entire mapping (in insertion order) before the next method is
tried: whichever method first finds a matching key decides the outcome and
stamps its own tag, later methods are never consulted. -/
theorem smart_translate_cascade_order :
    (∀ (m : List (String × String)) (t : String) (kv : String × String),
      t ≠ "" → dict_get m t = none →
      m.find? (fun p => stripAllWs p.fst == stripAllWs t) = some kv →
      smart_translate t m =
        if kv.snd == "" || pyStrip kv.snd == "" then (none, "翻译为空")
        else (some kv.snd, "移除空格匹配(" ++ kv.fst ++ ")")) ∧
    (∀ (m : List (String × String)) (t : String) (kv : String × String),
      t ≠ "" → dict_get m t = none →
      m.find? (fun p => stripAllWs p.fst == stripAllWs t) = none →
      m.find? (fun p => singleSpaceNorm p.fst == singleSpaceNorm t) = some kv →
      smart_translate t m =
        if kv.snd == "" || pyStrip kv.snd == "" then (none, "翻译为空")
        else (some kv.snd, "单空格匹配(" ++ kv.fst ++ ")")) ∧
    (∀ (m : List (String × String)) (t : String) (kv : String × String),
      t ≠ "" → dict_get m t = none →
      m.find? (fun p => stripAllWs p.fst == stripAllWs t) = none →
      m.find? (fun p => singleSpaceNorm p.fst == singleSpaceNorm t) = none →
      m.find? (fun p => pyStrip p.fst == pyStrip t) = some kv →
      smart_translate t m =
        if kv.snd == "" || pyStrip kv.snd == "" then (none, "翻译为空")
        else (some kv.snd, "去首尾空格匹配(" ++ kv.fst ++ ")")) := by
  refine ⟨?_, ?_, ?_⟩
  · intro m t kv ht hd hf
    have ht' : (t == "") = false := by simp [ht]
    simp [smart_translate, ht', hd, try_norm_methods, norm_methods, hf]
  · intro m t kv ht hd hf1 hf2
    have ht' : (t == "") = false := by simp [ht]
    simp [smart_translate, ht', hd, try_norm_methods, norm_methods, hf1, hf2]
  · intro m t kv ht hd hf1 hf2 hf3
    have ht' : (t == "") = false := by simp [ht]
    simp [smart_translate, ht', hd, try_norm_methods, norm_methods, hf1, hf2, hf3]

/-- Witness for `smart_translate_cascade_order`: the spec's own example —
mapping `{"A B": "X"}`, input `"A  B"` (double space) — matches under the
first method, strip-all-whitespace, and is tagged accordingly, not with
the single-space tag. -/
theorem smart_translate_cascade_order_witness :
    smart_translate "A  B" [("A B", "X")] = (some "X", "移除空格匹配(A B)") := by
  have h := smart_translate_cascade_order.1 [("A B", "X")] "A  B" ("A B", "X")
    (by decide) (by decide) (by decide)
  rw [h]; decide

end CadTrans

namespace CadTrans

/-- C5: a row's target value enters the mapping exactly when, after
stringification and trimming, it is non-empty and its lower-cased form is
not a placeholder token; in particular `"N/A"` in any letter case and a
whitespace-only target are excluded while `"0"` is included (shown both
for the 2-column and the 3-column layout). -/
theorem load_translation_map_target_filter :
    (∀ (src tgt : String),
      load_translation_map [[some src, some tgt]] =
        if pyStrip tgt ≠ "" ∧ pyLower (pyStrip tgt) ∉ invalid_values
        then [(pyStrip src, pyStrip tgt)] else []) ∧
    load_translation_map [[some "样例", some "N/A"]] = [] ∧
    load_translation_map [[some "样例", some "n/a"]] = [] ∧
    load_translation_map [[some "样例", some "N/a"]] = [] ∧
    load_translation_map [[some "样例", some "n/A"]] = [] ∧
    load_translation_map [[some "样例", some "  "]] = [] ∧
    load_translation_map [[some "样例", some "0"]] = [("样例", "0")] ∧
    load_translation_map [[some "1", some "样例", some "0"]] = [("样例", "0")] := by
  refine ⟨?_, by decide, by decide, by decide, by decide, by decide, by decide, by decide⟩
  intro src tgt
  have h2 : ¬ ([some src, some tgt].length ≥ 3) := by simp
  have h3 : [some src, some tgt].length ≥ 2 := by simp
  have hrow : row_entry [some src, some tgt] = some (pyStrip src, some tgt) := by
    simp [row_entry, h2, h3, cellStr]
  by_cases hc : pyStrip tgt ≠ "" ∧ pyLower (pyStrip tgt) ∉ invalid_values
  · have ha : accept_target (some tgt) = some (pyStrip tgt) := by
      simp [accept_target, pd_notna, cellStr, hc.1, hc.2]
    simp [load_translation_map, hrow, ha, hc, dict_set, hc.2]
  · have ha : accept_target (some tgt) = none := by
      simp only [accept_target, pd_notna, cellStr]
      simp only [if_true, Bool.true_eq]
      rw [if_neg]
      simpa using hc
    simp [load_translation_map, hrow, ha, hc]

end CadTrans

namespace CadTrans

/-- C7: an entity whose source text is empty/whitespace-only, or for
which the matcher returns no translation, is left entirely unchanged by
the substitution pass — style table untouched, the entity kept with every
field at its prior value — and the per-entity outcome is exactly
`{processed: 1, translated: 0, skipped: 1, errors: 0}`; moreover the
matcher returns no translation for every input whenever the mapping is
empty. -/
theorem translate_entity_skip :
    (∀ (styles : List StyleRec) (e : TextEnt) (m : List (String × String))
        (font : String) (replace_mode : Bool) (red : ℚ),
      (pyStrip (e.text.getD "") = "" ∨ (smart_translate (e.text.getD "") m).1 = none) →
      translate_text_entity styles e m font replace_mode red =
        (styles, Fate.kept e, ⟨1, 0, 1, 0⟩)) ∧
    (∀ t : String, (smart_translate t []).1 = none) := by
  constructor
  · intro styles e m font replace_mode red h
    cases hcond : (e.text.getD "" == "" || pyStrip (e.text.getD "") == "") with
    | true => simp [translate_text_entity, hcond]
    | false =>
      have hsm : (smart_translate (e.text.getD "") m).1 = none := by
        rcases h with h | h
        · rw [h] at hcond
          simp at hcond
        · exact h
      rcases hsp : smart_translate (e.text.getD "") m with ⟨o, meth⟩
      rw [hsp] at hsm
      cases o with
      | some tr => exact absurd hsm (by simp)
      | none => simp [translate_text_entity, hcond, hsp]
  · intro t
    cases h : (t == "") with
    | true => simp [smart_translate, h]
    | false =>
      simp [smart_translate, h, dict_get, try_norm_methods, norm_methods]

/-- Witness for `translate_entity_skip`: one concrete entity against the
empty mapping is kept unchanged with outcome
`{processed: 1, translated: 0, skipped: 1, errors: 0}`. -/
theorem translate_entity_skip_witness :
    translate_text_entity [] ⟨some "你好", some 10, none, none, some "0", none⟩
        [] "Arial" true 4 =
      ([], Fate.kept ⟨some "你好", some 10, none, none, some "0", none⟩,
        ⟨1, 0, 1, 0⟩) :=
  translate_entity_skip.1 [] ⟨some "你好", some 10, none, none, some "0", none⟩
    [] "Arial" true 4 (Or.inr (translate_entity_skip.2 "你好"))

/-- C6 (evaluation at the failing input): when the table file is missing
or unreadable the loader yields the empty mapping; `main` then reports
the error and returns 1 without running the substitution phase — but the
`if __name__ == "__main__":` block discards `main`'s return value, so the
script's process exit status is 0, not the non-zero status the claim
requires. -/
theorem main_empty_map_exit (process_errors : Nat) :
    load_translation_map_or_empty none = [] ∧
    main_backfill none process_errors = (1, false) ∧
    script_exit_status none process_errors = 0 :=
  ⟨rfl, rfl, rfl⟩

end CadTrans

namespace CadTrans

/-- C8: in both substitution modes, an entity carrying a height attribute
`h` ends with height exactly `max (h − r, 1)` for reduction constant `r`;
and that value is never below 1 for any `h` and `r`. -/
theorem translate_entity_height_floor :
    (∀ (styles : List StyleRec) (e : TextEnt) (m : List (String × String))
        (font : String) (red h : ℚ) (tr meth : String),
      e.height = some h →
      pyStrip (e.text.getD "") ≠ "" →
      smart_translate (e.text.getD "") m = (some tr, meth) →
      ((translate_text_entity styles e m font true red).2.1.entity.height
          = some (max (h - red) 1)) ∧
      ((translate_text_entity styles e m font false red).2.1.entity.height
          = some (max (h - red) 1))) ∧
    (∀ h red : ℚ, (1 : ℚ) ≤ max (h - red) 1) := by
  constructor
  · intro styles e m font red h tr meth hh hne hsm
    have hb : (e.text.getD "" == "" || pyStrip (e.text.getD "") == "") = false := by
      simp only [Bool.or_eq_false_iff, beq_eq_false_iff_ne, ne_eq]
      refine ⟨?_, hne⟩
      intro h0
      exact hne (by rw [h0]; rfl)
    constructor
    · cases hst : e.style with
      | none => simp [translate_text_entity, hb, hsm, hst, hh, Fate.entity]
      | some s => simp [translate_text_entity, hb, hsm, hst, hh, Fate.entity]
    · simp [translate_text_entity, hb, hsm, hh, Fate.entity]
  · intro h red
    exact le_max_right _ _

/-- Witness for `translate_entity_height_floor`: an entity of height 3
with reduction 4 ends with height exactly 1 in both modes. -/
theorem translate_entity_height_floor_witness :
    ((translate_text_entity [] ⟨some "你好", some 3, none, none, some "0", some "S"⟩
        [("你好", "Hi")] "Arial" true 4).2.1.entity.height = some 1) ∧
    ((translate_text_entity [] ⟨some "你好", some 3, none, none, some "0", some "S"⟩
        [("你好", "Hi")] "Arial" false 4).2.1.entity.height = some 1) := by
  have h := translate_entity_height_floor.1 []
    ⟨some "你好", some 3, none, none, some "0", some "S"⟩ [("你好", "Hi")]
    "Arial" 4 3 "Hi" "直接匹配" rfl (by decide) (by decide)
  have hm : max ((3 : ℚ) - 4) 1 = 1 := by norm_num
  exact ⟨by rw [h.1, hm], by rw [h.2, hm]⟩

end CadTrans

namespace CadTrans

/-- Number of style-table entries whose name is the deterministically
derived style name for `font`. -/
def count_style (styles : List StyleRec) (font : String) : Nat :=
  styles.countP (fun s => s.name == style_name font)

lemma ensure_style_count (styles : List StyleRec) (font : String) :
    count_style (ensure_style styles font) font =
      if styles.any (fun s => s.name == style_name font)
      then count_style styles font else count_style styles font + 1 := by
  by_cases hany : styles.any (fun s => s.name == style_name font) = true
  · rw [ensure_style, if_pos hany, if_pos hany]
  · rw [ensure_style, if_neg hany, if_neg hany, count_style, count_style,
      List.countP_append]
    simp [List.countP_cons]

lemma ensure_style_count_pos (styles : List StyleRec) (font : String) :
    1 ≤ count_style (ensure_style styles font) font := by
  rw [ensure_style_count]
  by_cases hany : styles.any (fun s => s.name == style_name font) = true
  · rw [if_pos hany]
    rw [List.any_eq_true] at hany
    exact List.countP_pos_iff.mpr hany
  · rw [if_neg hany]
    exact Nat.le_add_left 1 _

lemma ensure_style_count_le (styles : List StyleRec) (font : String)
    (h : count_style styles font ≤ 1) :
    count_style (ensure_style styles font) font ≤ 1 := by
  rw [ensure_style_count]
  by_cases hany : styles.any (fun s => s.name == style_name font) = true
  · rw [if_pos hany]; exact h
  · rw [if_neg hany]
    have h0 : count_style styles font = 0 := by
      rw [count_style, List.countP_eq_zero]
      intro a ha
      rw [List.any_eq_true] at hany
      exact fun hp => hany ⟨a, ha, hp⟩
    rw [h0]

lemma translate_styles_eq (styles : List StyleRec) (e : TextEnt)
    (m : List (String × String)) (font : String) (rm : Bool) (red : ℚ) :
    (translate_text_entity styles e m font rm red).1 = styles ∨
    (translate_text_entity styles e m font rm red).1 = ensure_style styles font := by
  cases hcond : (e.text.getD "" == "" || pyStrip (e.text.getD "") == "") with
  | true => left; simp [translate_text_entity, hcond]
  | false =>
    rcases hsp : smart_translate (e.text.getD "") m with ⟨o, meth⟩
    cases o with
    | none => left; simp [translate_text_entity, hcond, hsp]
    | some tr =>
      cases rm with
      | false => right; simp [translate_text_entity, hcond, hsp]
      | true =>
        cases hst : e.style with
        | none => left; simp [translate_text_entity, hcond, hsp, hst]
        | some s => right; simp [translate_text_entity, hcond, hsp, hst]

lemma translate_styles_triggers (styles : List StyleRec)
    (m : List (String × String)) (font : String) (red : ℚ)
    (job : TextEnt × Bool) (h : triggers_style_creation m job) :
    (translate_text_entity styles job.1 m font job.2 red).1 =
      ensure_style styles font := by
  obtain ⟨h1, h2, h3⟩ := h
  have hb : (job.1.text.getD "" == "" || pyStrip (job.1.text.getD "") == "") = false := by
    simp only [Bool.or_eq_false_iff, beq_eq_false_iff_ne, ne_eq]
    refine ⟨?_, h1⟩
    intro h0
    exact h1 (by rw [h0]; rfl)
  rcases hsp : smart_translate (job.1.text.getD "") m with ⟨o, meth⟩
  rw [hsp] at h2
  cases o with
  | none => simp at h2
  | some tr =>
    cases hrm : job.2 with
    | false => simp [translate_text_entity, hb, hsp]
    | true =>
      rcases h3 with h3 | h3
      · rw [hrm] at h3; cases h3
      · rcases hs : job.1.style with _ | s
        · rw [hs] at h3; simp at h3
        · simp [translate_text_entity, hb, hsp, hs]

lemma run_count_le_one (m : List (String × String)) (font : String) (red : ℚ) :
    ∀ (jobs : List (TextEnt × Bool)) (styles : List StyleRec),
      count_style styles font ≤ 1 →
      count_style (run_translate_jobs styles jobs m font red) font ≤ 1 := by
  intro jobs
  induction jobs with
  | nil => intro styles h; exact h
  | cons j rest ih =>
    intro styles h
    have hstep : count_style ((translate_text_entity styles j.1 m font j.2 red).1) font ≤ 1 := by
      rcases translate_styles_eq styles j.1 m font j.2 red with he | he <;> rw [he]
      · exact h
      · exact ensure_style_count_le styles font h
    exact ih _ hstep

lemma run_count_mono (m : List (String × String)) (font : String) (red : ℚ) :
    ∀ (jobs : List (TextEnt × Bool)) (styles : List StyleRec),
      count_style styles font ≤
        count_style (run_translate_jobs styles jobs m font red) font := by
  intro jobs
  induction jobs with
  | nil => intro styles; exact Nat.le_refl _
  | cons j rest ih =>
    intro styles
    refine Nat.le_trans ?_ (ih ((translate_text_entity styles j.1 m font j.2 red).1))
    rcases translate_styles_eq styles j.1 m font j.2 red with he | he <;> rw [he]
    rw [ensure_style_count]
    by_cases hany : styles.any (fun s => s.name == style_name font) = true
    · rw [if_pos hany]
    · rw [if_neg hany]; exact Nat.le_succ _

lemma run_count_eq_one (m : List (String × String)) (font : String) (red : ℚ) :
    ∀ (jobs : List (TextEnt × Bool)) (styles : List StyleRec),
      count_style styles font ≤ 1 →
      (count_style styles font = 1 ∨ ∃ j ∈ jobs, triggers_style_creation m j) →
      count_style (run_translate_jobs styles jobs m font red) font = 1 := by
  intro jobs
  induction jobs with
  | nil =>
    intro styles h hd
    rcases hd with hd | ⟨j, hj, _⟩
    · exact hd
    · cases hj
  | cons j rest ih =>
    intro styles h hd
    have hstep : count_style ((translate_text_entity styles j.1 m font j.2 red).1) font ≤ 1 := by
      rcases translate_styles_eq styles j.1 m font j.2 red with he | he <;> rw [he]
      · exact h
      · exact ensure_style_count_le styles font h
    rcases hd with h1 | ⟨j', hj', htr⟩
    · refine ih _ hstep (Or.inl ?_)
      refine Nat.le_antisymm hstep ?_
      calc 1 = count_style styles font := h1.symm
        _ ≤ _ := by
          show count_style styles font ≤
            count_style ((translate_text_entity styles j.1 m font j.2 red).1) font
          rcases translate_styles_eq styles j.1 m font j.2 red with he | he <;> rw [he]
          rw [ensure_style_count]
          by_cases hany : styles.any (fun s => s.name == style_name font) = true
          · rw [if_pos hany]
          · rw [if_neg hany]; exact Nat.le_succ _
    · rcases List.mem_cons.mp hj' with rfl | hmem
      · refine ih _ hstep (Or.inl ?_)
        refine Nat.le_antisymm hstep ?_
        show 1 ≤ count_style ((translate_text_entity styles j'.1 m font j'.2 red).1) font
        rw [translate_styles_triggers styles m font red j' htr]
        exact ensure_style_count_pos styles font
      · exact ih _ hstep (Or.inr ⟨j', hmem, htr⟩)

/-- C9: style creation is idempotent. The entry name is derived
deterministically from the font (`style_name`); starting from a style
table with no entry of that name, translating any number of entities (in
any mix of modes, across all regions sharing the document's style table)
that all request the same font leaves at most one entry of that name, and
exactly one as soon as at least one entity actually reaches the style
handling. -/
theorem style_creation_idempotent (m : List (String × String)) (font : String)
    (red : ℚ) (jobs : List (TextEnt × Bool)) (styles₀ : List StyleRec)
    (h0 : count_style styles₀ font = 0) :
    count_style (run_translate_jobs styles₀ jobs m font red) font ≤ 1 ∧
    ((∃ j ∈ jobs, triggers_style_creation m j) →
      count_style (run_translate_jobs styles₀ jobs m font red) font = 1) := by
  have hle : count_style styles₀ font ≤ 1 := by rw [h0]; exact Nat.zero_le 1
  exact ⟨run_count_le_one m font red jobs styles₀ hle,
    fun hex => run_count_eq_one m font red jobs styles₀ hle (Or.inr hex)⟩

/-- Witness for `style_creation_idempotent`: two entities requesting font
`"Arial"` against an initially empty style table produce exactly one
entry named for that font. -/
theorem style_creation_idempotent_witness :
    count_style
      (run_translate_jobs []
        [(⟨some "你好", some 10, none, none, none, none⟩, false),
         (⟨some "你好", some 10, none, none, none, none⟩, false)]
        [("你好", "Hi")] "Arial" 4) "Arial" = 1 :=
  (style_creation_idempotent [("你好", "Hi")] "Arial" 4
    [(⟨some "你好", some 10, none, none, none, none⟩, false),
     (⟨some "你好", some 10, none, none, none, none⟩, false)]
    [] (by decide)).2
    ⟨(⟨some "你好", some 10, none, none, none, none⟩, false),
      by simp, by constructor; · decide
                  · exact ⟨by decide, Or.inl rfl⟩⟩

end CadTrans

namespace CadTrans

/-- C3 (amended: the final length rule is on the raw, untrimmed value —
`len(value) < 2` — not "after trimming" as the claim states): every
string caught by any of the eight exclusion rules — empty after
trimming; Python-float numeric literal; coordinate-like comma pattern;
hexadecimal of length ≤ 8; reserved layer token/prefix; hexadecimal of
length ≤ 4; structural/entity-type keyword (case-insensitive); raw
length < 2 — is classified non-meaningful, and a representative
CJK-containing phrase is classified meaningful. -/
theorem is_meaningful_text_exclusions :
    (∀ v : String,
      (pyStrip v = "" ∨ isPyFloat v = true ∨ is_coordinate_like v = true ∨
       is_handle_value v = true ∨ is_layer_name v = true ∨
       is_short_hex v = true ∨ is_cad_entity_type v = true ∨ v.length < 2) →
      is_meaningful_text v = false) ∧
    is_meaningful_text "技术要求说明" = true := by
  refine ⟨?_, by decide⟩
  intro v h
  rcases h with h | h | h | h | h | h | h | h
  · simp [is_meaningful_text, h]
  · simp [is_meaningful_text, is_technical_value, h]
  · simp [is_meaningful_text, is_technical_value, h]
  · simp [is_meaningful_text, h]
  · simp [is_meaningful_text, h]
  · simp [is_meaningful_text, h]
  · simp [is_meaningful_text, h]
  · simp [is_meaningful_text, h]

/-- Witness for `is_meaningful_text_exclusions`: the hexadecimal handle
`"1F"` is rejected and the representative phrase accepted. -/
theorem is_meaningful_text_exclusions_witness :
    is_meaningful_text "1F" = false ∧ is_meaningful_text "技术要求说明" = true :=
  ⟨is_meaningful_text_exclusions.1 "1F"
      (Or.inr (Or.inr (Or.inr (Or.inl (by decide))))),
    is_meaningful_text_exclusions.2⟩

/-- C3, counterexample to the claim's rule 8 as stated (`shorter than 2
characters after trimming`): the value `" a "` trims to a single
character, yet `_is_meaningful_text` accepts it, because the code tests
the raw length `len(value) = 3`. -/
theorem is_meaningful_text_trim_counterexample :
    (pyStrip " a ").length < 2 ∧ is_meaningful_text " a " = true := by decide

end CadTrans

namespace CadTrans

/-- C4 (amended: the wholesale deletion of inline control sequences and
brace groups holds for the CLI extractor's model-space MTEXT scan,
`DXFTextExtractor.extract_mtext_entities`; the modular engine's
`ModelSpaceExtractor` is covered by the counterexample, not by this
theorem): every MTEXT record that scan emits carries the raw text with
every inline control sequence `\<letter>…;` and every brace group
deleted and the result trimmed — never the raw text itself. -/
theorem mtext_markup_deleted (min_length max_length : Nat)
    (exclude_layers : List String) (ents : List MtextRaw) (info : TextInfo)
    (hmem : info ∈ extract_mtext_entities min_length max_length exclude_layers ents) :
    ∃ e ∈ ents, info.text = clean_mtext e.raw_text ∧ info.layer = e.layer ∧
      info.typ = "MTEXT" := by
  simp only [extract_mtext_entities, List.mem_filterMap] at hmem
  obtain ⟨e, he, hf⟩ := hmem
  refine ⟨e, he, ?_⟩
  by_cases hex : should_exclude_text min_length max_length exclude_layers
      (clean_mtext e.raw_text) e.layer = true
  · simp [hex] at hf
  · simp only [hex, Bool.false_eq_true, if_false, Option.some.injEq] at hf
    rw [← hf]
    exact ⟨rfl, rfl, rfl⟩

/-- Witness for `mtext_markup_deleted` at a concrete scan. -/
theorem mtext_markup_deleted_witness :
    ∃ e ∈ [(⟨"\\fSimSun;工艺说明", "0", "2F"⟩ : MtextRaw)],
      (⟨"MTEXT", "2F", "工艺说明", "0"⟩ : TextInfo).text = clean_mtext e.raw_text ∧
      (⟨"MTEXT", "2F", "工艺说明", "0"⟩ : TextInfo).layer = e.layer ∧
      (⟨"MTEXT", "2F", "工艺说明", "0"⟩ : TextInfo).typ = "MTEXT" :=
  mtext_markup_deleted 1 1000 [] [⟨"\\fSimSun;工艺说明", "0", "2F"⟩]
    ⟨"MTEXT", "2F", "工艺说明", "0"⟩ (by decide)

/-- C4, counterexample to the claim as stated: in the model-space scan of
`dxf_text_extractor.py`'s `ModelSpaceExtractor`, an MTEXT entity's text
is used with only whitespace trimming — the inline control sequence
`\fSimSun;` survives into the output, though wholesale deletion would
have produced `工艺说明`. -/
theorem mtext_markup_kept_counterexample :
    model_space_texts [.mtextEnt "\\fSimSun;工艺说明"] = ["\\fSimSun;工艺说明"] ∧
    clean_mtext "\\fSimSun;工艺说明" = "工艺说明" ∧
    ("\\fSimSun;工艺说明" : String) ≠ "工艺说明" := by decide

end CadTrans

namespace CadTrans

lemma collapse_mem_space :
    ∀ l : List Char, (∃ c ∈ l, isPyWs c = true) → ' ' ∈ collapseWsList l := by
  intro l
  induction l with
  | nil => rintro ⟨c, hc, _⟩; cases hc
  | cons c rest ih =>
    rintro ⟨d, hd, hws⟩
    cases rest with
    | nil =>
      have hdc : d = c := List.mem_singleton.mp hd
      subst hdc
      simp [collapseWsList, hws]
    | cons c2 rest2 =>
      by_cases h12 : (isPyWs c && isPyWs c2) = true
      · rw [Bool.and_eq_true] at h12
        have hin : ' ' ∈ collapseWsList (c2 :: rest2) :=
          ih ⟨c2, List.mem_cons_self c2 rest2, h12.2⟩
        simpa [collapseWsList, h12.1, h12.2] using hin
      · rcases List.mem_cons.mp hd with rfl | hd2
        · have hc2 : isPyWs c2 = false := by
            cases hcc : isPyWs c2 with
            | false => rfl
            | true => exact absurd (by rw [hws, hcc]; rfl) h12
          simp [collapseWsList, hws, hc2]
        · have hin : ' ' ∈ collapseWsList (c2 :: rest2) := ih ⟨d, hd2, hws⟩
          simp [collapseWsList, h12, List.mem_cons]
          right
          exact hin

lemma collapse_no_ws_id :
    ∀ l : List Char, (∀ c ∈ l, isPyWs c = false) → collapseWsList l = l := by
  intro l
  induction l with
  | nil => intro _; rfl
  | cons c rest ih =>
    intro h
    cases rest with
    | nil => simp [collapseWsList, h c (List.mem_cons_self c [])]
    | cons c2 rest2 =>
      have hc : isPyWs c = false := h c (List.mem_cons_self _ _)
      have hrest : ∀ x ∈ c2 :: rest2, isPyWs x = false :=
        fun x hx => h x (List.mem_cons_of_mem _ hx)
      simp [collapseWsList, hc, ih hrest]

lemma tf_clean_hex_not_valid (min_length max_length : Nat) (text s : String)
    (hs : s ≠ "") (hhex : s.data.all (fun c => hex_chars.contains c) = true)
    (hclean : tf_clean_text text = s) :
    tf_is_valid_text min_length max_length text = false := by
  have hdata : collapseWsList (pyStripList text.data) = s.data :=
    congrArg String.data hclean
  have hspace : (' ' : Char) ∉ s.data := by
    intro hmem
    exact absurd (List.all_eq_true.mp hhex ' ' hmem) (by decide)
  have hnws : ∀ c ∈ pyStripList text.data, isPyWs c = false := by
    intro c hc
    cases hcw : isPyWs c with
    | false => rfl
    | true => exact absurd (hdata ▸ collapse_mem_space _ ⟨c, hc, hcw⟩) hspace
  have hid := collapse_no_ws_id _ hnws
  have hps : pyStrip text = s := by
    have hd : pyStripList text.data = s.data := by rw [← hid, hdata]
    calc pyStrip text = String.mk (pyStripList text.data) := rfl
      _ = String.mk s.data := by rw [hd]
      _ = s := by cases s; rfl
  have hne : s.data.isEmpty = false := by
    cases s with
    | mk d =>
      cases d with
      | nil => exact absurd rfl hs
      | cons a as => rfl
  have hpat : tf_pat_hex (pyStrip text) = true := by
    rw [hps]
    unfold tf_pat_hex
    rw [hne, hhex]
    rfl
  simp [tf_is_valid_text, hpat]

/-- C10 (implicit): the aggregation-level `TextFilter` never lets a
non-empty string made solely of hexadecimal digit characters into its
output, regardless of length and of the configured length window — so
pure-hex strings longer than the 8-character handle limit, including
alphabetic words like `"decade"` or `"face"`, cannot appear in the final
extraction output. -/
theorem filter_texts_excludes_pure_hex (min_length max_length : Nat)
    (texts : List String) (s : String) (hs : s ≠ "")
    (hhex : s.data.all (fun c => hex_chars.contains c) = true) :
    s ∉ filter_texts min_length max_length texts := by
  suffices H : ∀ (ts : List String) (acc : List String), s ∉ acc →
      s ∉ ts.foldl (tf_step min_length max_length) acc by
    exact H texts [] (List.not_mem_nil s)
  intro ts
  induction ts with
  | nil => intro acc hacc; exact hacc
  | cons t rest ih =>
    intro acc hacc
    apply ih
    unfold tf_step
    by_cases hv : tf_is_valid_text min_length max_length t = true
    · rw [if_pos hv]
      by_cases hcl : tf_clean_text t ≠ "" ∧ acc.contains (tf_clean_text t) = false
      · rw [if_pos hcl]
        intro hmem
        rcases List.mem_append.mp hmem with h | h
        · exact hacc h
        · have heq : tf_clean_text t = s := (List.mem_singleton.mp h).symm
          have hnv := tf_clean_hex_not_valid min_length max_length t s hs hhex heq
          rw [hnv] at hv
          cases hv
      · rw [if_neg hcl]; exact hacc
    · rw [if_neg hv]; exact hacc

/-- Witness for `filter_texts_excludes_pure_hex`: the alphabetic pure-hex
word `"decade"` and a 16-character hex string never survive the filter
(default window 1..1000). -/
theorem filter_texts_excludes_pure_hex_witness :
    "decade" ∉ filter_texts 1 1000 ["decade", "face", "说明文字"] ∧
    "ABCDEF0123456789" ∉ filter_texts 1 1000 ["ABCDEF0123456789"] :=
  ⟨filter_texts_excludes_pure_hex 1 1000 ["decade", "face", "说明文字"] "decade"
      (by decide) (by decide),
    filter_texts_excludes_pure_hex 1 1000 ["ABCDEF0123456789"] "ABCDEF0123456789"
      (by decide) (by decide)⟩

end CadTrans
